import Mathlib

/-!
Shallow embedding of the daily-ops monitoring pipeline:
`build_daily_kpi.py` (metric aggregator) and `detect_anomalies.py`
(rolling-baseline anomaly detector with a persisted replay cursor).

Conventions of the embedding:
* calendar days and timestamps are `Nat` (the date arithmetic of pandas is
  abstracted to day numbers; an unparseable timestamp is `none`);
* all metric values are exact rationals `ℚ` (the Python floats);
* a pandas `NaN` entry in a column is `Option.none`;
* the webhook call is an explicit argument `Except String Nat`
  (`.ok status` / `.error exceptionMessage`), and the state file write is
  the `persisted` field of the run result.
-/

/-- `ROLLING_DAYS` from `detect_anomalies.py`. -/
def ROLLING_DAYS : Nat := 7

/-- One row of `daily_ops_metrics.csv` (the `DailyMetricRow` of the spec):
produced by the aggregator, consumed by the detector. -/
structure DailyRow where
  date : Nat
  orders_count : ℚ
  revenue : ℚ
  canceled_orders : ℚ
  avg_order_value : ℚ
deriving DecidableEq

/-- `pct_change(today, baseline)` from `detect_anomalies.py`:
returns `0.0` when the baseline is zero or `NaN`, else the relative change. -/
def pct_change (today : ℚ) (baseline : Option ℚ) : ℚ :=
  match baseline with
  | none => 0
  | some b => if b = 0 then 0 else (today - b) / b

/-- C4: `pct_change` returns 0 on an undefined (`NaN`) baseline, 0 on a zero
baseline, and `(today - baseline) / baseline` on any nonzero baseline; the
division branch is never taken with a zero divisor, and the function is total
(defined for every input pair). -/
theorem pct_change_spec (t : ℚ) (b? : Option ℚ) :
    (b? = none → pct_change t b? = 0) ∧
    (b? = some 0 → pct_change t b? = 0) ∧
    (∀ b : ℚ, b ≠ 0 → b? = some b → pct_change t b? = (t - b) / b) := by
  refine ⟨?_, ?_, ?_⟩
  · rintro rfl; rfl
  · rintro rfl; simp [pct_change]
  · rintro b hb rfl
    simp [pct_change, hb]

/-- Witness for C4 at concrete inputs: undefined, zero and nonzero baselines. -/
theorem pct_change_spec_witness :
    pct_change 5 none = 0 ∧ pct_change 5 (some 0) = 0 ∧
      pct_change 5 (some 2) = (5 - 2) / 2 :=
  ⟨(pct_change_spec 5 none).1 rfl,
   (pct_change_spec 5 (some 0)).2.1 rfl,
   (pct_change_spec 5 (some 2)).2.2 2 (by norm_num) rfl⟩

/-- `Series.rolling(ROLLING_DAYS).mean()` of pandas on one metric column:
entry `i` is the mean of entries `i-w+1 .. i`, or `NaN` (`none`) when fewer
than `w` entries are available. -/
def rollingMean (w : Nat) (xs : List ℚ) : List (Option ℚ) :=
  (List.range xs.length).map (fun i =>
    if w ≤ i + 1 then some (((xs.take (i + 1)).drop (i + 1 - w)).sum / (w : ℚ))
    else none)

/-- `.shift(1)` of pandas: prepend `NaN` and drop the last entry. -/
def shift1 (ys : List (Option ℚ)) : List (Option ℚ) :=
  (none :: ys).take ys.length

/-- `df[col].rolling(ROLLING_DAYS).mean().shift(1)` from `detect_anomalies.py`:
the baseline column attached to a metric column. -/
def baseCol (xs : List ℚ) : List (Option ℚ) :=
  shift1 (rollingMean ROLLING_DAYS xs)

theorem rollingMean_length (w : Nat) (xs : List ℚ) :
    (rollingMean w xs).length = xs.length := by
  simp [rollingMean]

theorem baseCol_length (xs : List ℚ) : (baseCol xs).length = xs.length := by
  simp [baseCol, shift1, rollingMean]

theorem take_set (l : List α) (i : Nat) (v : α) :
    (l.set i v).take i = l.take i := by
  apply List.ext_getElem
  · simp
  · intro n h1 h2
    have hn : n < i := by simp at h1; omega
    rw [List.getElem_take, List.getElem_take]
    rw [List.getElem_set_ne (by omega)]

theorem baseCol_getElem? (xs : List ℚ) (i : Nat) (hi : i < xs.length) :
    (baseCol xs)[i]? =
      some (if ROLLING_DAYS ≤ i then
              some (((xs.take i).drop (i - ROLLING_DAYS)).sum / (ROLLING_DAYS : ℚ))
            else none) := by
  have hlen : (rollingMean ROLLING_DAYS xs).length = xs.length :=
    rollingMean_length _ _
  rw [baseCol, shift1, List.getElem?_take]
  rw [if_pos (by omega)]
  cases i with
  | zero =>
      simp [ROLLING_DAYS]
  | succ j =>
      have hj : j < xs.length := by omega
      rw [List.getElem?_cons_succ]
      rw [rollingMean, List.getElem?_map, List.getElem?_range (by omega)]
      simp only [Option.map_some']

/-- The window of metric values the baseline at position `i` averages:
positions `i - ROLLING_DAYS .. i - 1`. -/
theorem baseCol_window (xs : List ℚ) (i : Nat) (h7 : ROLLING_DAYS ≤ i) :
    (xs.take i).drop (i - ROLLING_DAYS) =
      (xs.drop (i - ROLLING_DAYS)).take ROLLING_DAYS := by
  rw [List.drop_take]
  congr 1
  omega

/-- C1: on a daily metric table whose rows are consecutive calendar days
(`rows[j].date = d0 + j`), the baseline column of any metric `f` satisfies:
at every position `i ≥ ROLLING_DAYS` it is the mean of `f` over the
`ROLLING_DAYS` rows strictly preceding `i` — and those rows carry exactly the
calendar days `d0+i-ROLLING_DAYS .. d0+i-1`, the days strictly before day
`d0+i`; it is undefined (`NaN`) at the first `ROLLING_DAYS` positions; and it
is unchanged when row `i`'s own values are replaced arbitrarily
(anti-leakage). -/
theorem baseline_excludes_current_day (rows : List DailyRow) (f : DailyRow → ℚ)
    (d0 : Nat)
    (hdates : ∀ (j : Nat) (hj : j < rows.length), (rows.get ⟨j, hj⟩).date = d0 + j)
    (i : Nat) (hi : i < rows.length) :
    (ROLLING_DAYS ≤ i →
      (baseCol (rows.map f))[i]? =
        some (some ((((rows.drop (i - ROLLING_DAYS)).take ROLLING_DAYS).map f).sum
          / (ROLLING_DAYS : ℚ))) ∧
      ((rows.drop (i - ROLLING_DAYS)).take ROLLING_DAYS).map (fun r => r.date) =
        List.range' (d0 + (i - ROLLING_DAYS)) ROLLING_DAYS) ∧
    (i < ROLLING_DAYS → (baseCol (rows.map f))[i]? = some none) ∧
    (∀ v : DailyRow,
      (baseCol ((rows.set i v).map f))[i]? = (baseCol (rows.map f))[i]?) := by
  have hmi : i < (rows.map f).length := by simpa using hi
  refine ⟨fun h7 => ⟨?_, ?_⟩, fun hlt => ?_, fun v => ?_⟩
  · rw [baseCol_getElem? _ i hmi, if_pos h7, baseCol_window _ i h7]
    rw [← List.map_drop, ← List.map_take]
  · apply List.ext_getElem
    · simp [List.length_range']
      omega
    · intro n h1 h2
      have hlen : n < ROLLING_DAYS := by
        simp [List.length_range'] at h2
        exact h2
      rw [List.getElem_map, List.getElem_take, List.getElem_drop,
        List.getElem_range']
      have := hdates ((i - ROLLING_DAYS) + n) (by omega)
      rw [List.get_eq_getElem] at this
      rw [this]
      omega
  · rw [baseCol_getElem? _ i hmi, if_neg (by omega)]
  · have hmi' : i < ((rows.set i v).map f).length := by simpa using hi
    rw [baseCol_getElem? _ i hmi', baseCol_getElem? _ i hmi,
      List.map_set, take_set]

/-- A 9-day contiguous test table (days 0..8). -/
def rows9 : List DailyRow :=
  (List.range 9).map (fun j =>
    { date := j, orders_count := 1, revenue := (j : ℚ),
      canceled_orders := 0, avg_order_value := 1 })

/-- Witness for C1 at the concrete table `rows9`, position 7 (baseline defined,
averages positions 0..6, unchanged if row 7 is replaced) and position 3
(baseline undefined). -/
theorem baseline_excludes_current_day_witness :
    ((baseCol (rows9.map DailyRow.revenue))[7]? =
      some (some ((((rows9.drop (7 - ROLLING_DAYS)).take ROLLING_DAYS).map
        DailyRow.revenue).sum / (ROLLING_DAYS : ℚ)))) ∧
    ((baseCol (rows9.map DailyRow.revenue))[3]? = some none) ∧
    (∀ v : DailyRow,
      (baseCol ((rows9.set 7 v).map DailyRow.revenue))[7]? =
        (baseCol (rows9.map DailyRow.revenue))[7]?) :=
  ⟨((baseline_excludes_current_day rows9 DailyRow.revenue 0 (by decide) 7
      (by decide)).1 (by decide)).1,
   (baseline_excludes_current_day rows9 DailyRow.revenue 0 (by decide) 3
      (by decide)).2.1 (by decide),
   (baseline_excludes_current_day rows9 DailyRow.revenue 0 (by decide) 7
      (by decide)).2.2⟩

/-- Python's `round` to the nearest integer (ties to even). -/
def roundHalfEven (q : ℚ) : ℤ :=
  let f : ℤ := ⌊q⌋
  let r : ℚ := q - f
  if r < 1 / 2 then f
  else if 1 / 2 < r then f + 1
  else if f % 2 = 0 then f else f + 1

/-- Python's `round(x, 2)`: round to the nearest multiple of `1/100`. -/
def round2 (q : ℚ) : ℚ := (roundHalfEven (q * 100) : ℚ) / 100

/-- The thresholds dictionary `TH` of `detect_anomalies.py`. -/
def TH_revenue_drop_medium : ℚ := 15 / 100
def TH_revenue_drop_high : ℚ := 25 / 100
def TH_orders_drop_medium : ℚ := 12 / 100
def TH_orders_drop_high : ℚ := 20 / 100
def TH_aov_drop_medium : ℚ := 15 / 100
def TH_aov_drop_high : ℚ := 25 / 100
def TH_cancel_spike_medium : ℚ := 60 / 100
def TH_cancel_spike_high : ℚ := 120 / 100

inductive Metric
  | revenue
  | orders
  | avg_order_value
  | canceled_orders
deriving DecidableEq, BEq

inductive Direction
  | down
  | up
deriving DecidableEq, BEq

inductive Severity
  | medium
  | high
deriving DecidableEq, BEq

/-- One emitted signal dict. `detailsPct` is the rounded percentage embedded
into the `details` f-string (the only datum of that string). -/
structure Signal where
  metric : Metric
  direction : Direction
  severity : Severity
  detailsPct : ℤ
deriving DecidableEq

/-- A candidate row: a daily row together with its four (non-`NaN`)
baselines, as selected by the `dropna` over the `base_*` columns. -/
structure BRow where
  row : DailyRow
  base_orders_count : ℚ
  base_revenue : ℚ
  base_canceled_orders : ℚ
  base_avg_order_value : ℚ
deriving DecidableEq

/-- The `# Revenue drop` block of `detect_anomalies.py`. -/
def revenueSignals (b : BRow) : List Signal :=
  let ch := pct_change b.row.revenue (some b.base_revenue)
  if ch ≤ -TH_revenue_drop_medium then
    [{ metric := .revenue, direction := .down,
       severity := if TH_revenue_drop_high ≤ |ch| then .high else .medium,
       detailsPct := roundHalfEven (ch * 100) }]
  else []

/-- The `# Orders drop` block of `detect_anomalies.py`. -/
def ordersSignals (b : BRow) : List Signal :=
  let ch := pct_change b.row.orders_count (some b.base_orders_count)
  if ch ≤ -TH_orders_drop_medium then
    [{ metric := .orders, direction := .down,
       severity := if TH_orders_drop_high ≤ |ch| then .high else .medium,
       detailsPct := roundHalfEven (ch * 100) }]
  else []

/-- The `# AOV drop` block of `detect_anomalies.py`. -/
def aovSignals (b : BRow) : List Signal :=
  let ch := pct_change b.row.avg_order_value (some b.base_avg_order_value)
  if ch ≤ -TH_aov_drop_medium then
    [{ metric := .avg_order_value, direction := .down,
       severity := if TH_aov_drop_high ≤ |ch| then .high else .medium,
       detailsPct := roundHalfEven (ch * 100) }]
  else []

/-- The `# Cancellation spike` block of `detect_anomalies.py`. -/
def cancelSignals (b : BRow) : List Signal :=
  let ch := pct_change b.row.canceled_orders (some b.base_canceled_orders)
  if TH_cancel_spike_medium ≤ ch then
    [{ metric := .canceled_orders, direction := .up,
       severity := if TH_cancel_spike_high ≤ ch then .high else .medium,
       detailsPct := roundHalfEven (ch * 100) }]
  else []

/-- The full signal list of one evaluation, in the fixed source order. -/
def signalsFor (b : BRow) : List Signal :=
  revenueSignals b ++ ordersSignals b ++ aovSignals b ++ cancelSignals b

theorem ordersSignals_no_revenue (b : BRow) :
    (ordersSignals b).filter (fun s => s.metric == Metric.revenue) = [] := by
  simp only [ordersSignals]
  split <;> rfl

theorem aovSignals_no_revenue (b : BRow) :
    (aovSignals b).filter (fun s => s.metric == Metric.revenue) = [] := by
  simp only [aovSignals]
  split <;> rfl

theorem cancelSignals_no_revenue (b : BRow) :
    (cancelSignals b).filter (fun s => s.metric == Metric.revenue) = [] := by
  simp only [cancelSignals]
  split <;> rfl

theorem signalsFor_filter_revenue (b : BRow) :
    (signalsFor b).filter (fun s => s.metric == Metric.revenue) =
      (revenueSignals b).filter (fun s => s.metric == Metric.revenue) := by
  simp only [signalsFor, List.filter_append, ordersSignals_no_revenue,
    aovSignals_no_revenue, cancelSignals_no_revenue, List.append_nil]

/-- C5: for a day with a positive revenue baseline, a revenue change of
exactly −15% yields exactly one revenue signal, of severity medium; a change
of −25% or worse yields exactly one revenue signal, of severity high; a
change above −15% yields no revenue signal. -/
theorem revenue_threshold_spec (b : BRow) (hb : 0 < b.base_revenue) :
    (pct_change b.row.revenue (some b.base_revenue) = -TH_revenue_drop_medium →
      (signalsFor b).filter (fun s => s.metric == Metric.revenue) =
        [{ metric := .revenue, direction := .down, severity := .medium,
           detailsPct := roundHalfEven
             (pct_change b.row.revenue (some b.base_revenue) * 100) }]) ∧
    (pct_change b.row.revenue (some b.base_revenue) ≤ -TH_revenue_drop_high →
      (signalsFor b).filter (fun s => s.metric == Metric.revenue) =
        [{ metric := .revenue, direction := .down, severity := .high,
           detailsPct := roundHalfEven
             (pct_change b.row.revenue (some b.base_revenue) * 100) }]) ∧
    (-TH_revenue_drop_medium < pct_change b.row.revenue (some b.base_revenue) →
      (signalsFor b).filter (fun s => s.metric == Metric.revenue) = []) := by
  refine ⟨fun h => ?_, fun h => ?_, fun h => ?_⟩
  · rw [signalsFor_filter_revenue]
    simp only [revenueSignals]
    rw [if_pos (le_of_eq h)]
    rw [if_neg ?_]
    · rfl
    · rw [h, abs_neg, abs_of_pos (by norm_num [TH_revenue_drop_medium])]
      norm_num [TH_revenue_drop_medium, TH_revenue_drop_high]
  · rw [signalsFor_filter_revenue]
    simp only [revenueSignals]
    have hneg : pct_change b.row.revenue (some b.base_revenue) < 0 :=
      lt_of_le_of_lt h (by norm_num [TH_revenue_drop_high])
    rw [if_pos (le_trans h (by norm_num [TH_revenue_drop_medium,
      TH_revenue_drop_high]))]
    rw [if_pos ?_]
    · rfl
    · rw [abs_of_neg hneg]
      have : TH_revenue_drop_high ≤ -pct_change b.row.revenue
          (some b.base_revenue) := by
        rw [TH_revenue_drop_high] at h ⊢
        linarith
      exact this
  · rw [signalsFor_filter_revenue]
    simp only [revenueSignals]
    rw [if_neg (by push_neg; exact h)]
    rfl

/-- A candidate day whose revenue is exactly 15% below its baseline. -/
def bMedium : BRow :=
  { row := { date := 12, orders_count := 10, revenue := 85,
             canceled_orders := 0, avg_order_value := 85 / 10 },
    base_orders_count := 10, base_revenue := 100,
    base_canceled_orders := 0, base_avg_order_value := 10 }

/-- Witness for C5 at `bMedium`: `pct = −0.15` emits exactly one medium
revenue signal. -/
theorem revenue_threshold_spec_witness :
    (signalsFor bMedium).filter (fun s => s.metric == Metric.revenue) =
      [{ metric := .revenue, direction := .down, severity := .medium,
         detailsPct := roundHalfEven
           (pct_change bMedium.row.revenue (some bMedium.base_revenue) * 100) }] :=
  (revenue_threshold_spec bMedium (by norm_num [bMedium])).1 (by
    norm_num [bMedium, pct_change, TH_revenue_drop_medium])

/-- The candidate construction of `detect_anomalies.py`: each row paired with
its four baseline values, keeping only rows where none of the four is `NaN`
(the `dropna` over the `base_*` columns). -/
def withBases (rows : List DailyRow) : List BRow :=
  (List.range rows.length).filterMap (fun i =>
    match rows[i]?, (baseCol (rows.map DailyRow.orders_count))[i]?,
          (baseCol (rows.map DailyRow.revenue))[i]?,
          (baseCol (rows.map DailyRow.canceled_orders))[i]?,
          (baseCol (rows.map DailyRow.avg_order_value))[i]? with
    | some r, some (some bo), some (some br), some (some bc), some (some ba) =>
        some { row := r, base_orders_count := bo, base_revenue := br,
               base_canceled_orders := bc, base_avg_order_value := ba }
    | _, _, _, _, _ => none)

/-- `candidates[candidates["date"] >= SIM_START_DATE]`: the eligible
evaluation days. -/
def candidates (rows : List DailyRow) (simStart : Nat) : List BRow :=
  (withBases rows).filter (fun b => simStart ≤ b.row.date)

/-- The out-of-range guard: `if cursor >= len(candidates): cursor = 0`. -/
def wrapCursor (n state : Nat) : Nat := if n ≤ state then 0 else state

theorem wrapCursor_lt (n state : Nat) (h : 0 < n) : wrapCursor n state < n := by
  unfold wrapCursor
  split <;> omega

inductive Status
  | normal
  | anomaly_detected
deriving DecidableEq

/-- The data rendered into the `summary` text block (the exact quantities the
f-strings interpolate, in order). -/
structure Summary where
  date : Nat
  status : Status
  orders_today : ℚ
  orders_base : ℚ
  revenue_today : ℚ
  revenue_base : ℚ
  canceled_today : ℚ
  canceled_base : ℚ
  aov_today : ℚ
  aov_base : ℚ
  signals : List Signal
deriving DecidableEq

/-- The `payload` dict pushed to the webhook. -/
structure AlertPayload where
  run_time : Nat
  sim_cursor : Nat
  date : Nat
  status : Status
  signals_count : Nat
  signals : List Signal
  summary : Summary
deriving DecidableEq

/-- Payload construction from `detect_anomalies.py` (`run_time` is
`datetime.now()`, passed in as `now`). -/
def mkPayload (now cursor : Nat) (b : BRow) : AlertPayload :=
  let sigs := signalsFor b
  let st := if sigs.isEmpty then Status.normal else Status.anomaly_detected
  { run_time := now, sim_cursor := cursor, date := b.row.date, status := st,
    signals_count := sigs.length, signals := sigs,
    summary :=
      { date := b.row.date, status := st,
        orders_today := b.row.orders_count, orders_base := b.base_orders_count,
        revenue_today := b.row.revenue, revenue_base := b.base_revenue,
        canceled_today := b.row.canceled_orders,
        canceled_base := b.base_canceled_orders,
        aov_today := b.row.avg_order_value, aov_base := b.base_avg_order_value,
        signals := sigs } }

inductive RunError
  | dataError
  | configError
deriving DecidableEq

deriving instance DecidableEq for Except

/-- Observable effects of one `main()` invocation: the fatal outcome or the
emitted payload, whether (and with what result) the webhook was called, and
the cursor value in the state file afterwards. -/
structure RunResult where
  outcome : Except RunError AlertPayload
  delivered : Option (Except String Nat)
  persisted : Nat
deriving DecidableEq

/-- `main()` of `detect_anomalies.py`.
`input` is `none` when `daily_ops_metrics.csv` is missing, else
`some (colsOk, rows)` where `colsOk` says the required columns are all
present and `rows` is the parsed table in ascending date order (the
aggregator exports it sorted, so `sort_values("date")` is the identity on
it); `simStart` is the parsed `SIM_START_DATE`; `state` is the loaded
cursor; `now` the wall clock (`datetime.now()`); `webhook` the outcome
`requests.post` would produce (status or raised exception). -/
def runMain (input : Option (Bool × List DailyRow)) (simStart : Nat)
    (state : Nat) (now : Nat) (webhook : Except String Nat) : RunResult :=
  match input with
  | none => { outcome := .error .dataError, delivered := none,
              persisted := state }
  | some (colsOk, rows) =>
    if colsOk then
      let cands := candidates rows simStart
      if h : cands.length = 0 then
        { outcome := .error .configError, delivered := none,
          persisted := state }
      else
        let cursor := wrapCursor cands.length state
        let b := cands.get ⟨cursor, wrapCursor_lt _ _ (Nat.pos_of_ne_zero h)⟩
        { outcome := .ok (mkPayload now cursor b), delivered := some webhook,
          persisted := cursor + 1 }
    else
      { outcome := .error .dataError, delivered := none, persisted := state }

/-- Unfolding of a successful invocation. -/
theorem runMain_ok (rows : List DailyRow) (simStart state now : Nat)
    (w : Except String Nat) (h : candidates rows simStart ≠ []) :
    runMain (some (true, rows)) simStart state now w =
      { outcome := .ok (mkPayload now
          (wrapCursor (candidates rows simStart).length state)
          ((candidates rows simStart).get
            ⟨wrapCursor (candidates rows simStart).length state,
             wrapCursor_lt _ _ (List.length_pos.mpr h)⟩)),
        delivered := some w,
        persisted := wrapCursor (candidates rows simStart).length state + 1 } := by
  have hlen : ¬((candidates rows simStart).length = 0) := by
    simpa [List.length_eq_zero] using h
  simp only [runMain, if_true]
  rw [dif_neg hlen]

/-- An 8-day contiguous test table (days 0..7, all metrics constant 7), whose
eligible-day list for `simStart = 0` has exactly one entry (day 7). -/
def rows8 : List DailyRow :=
  (List.range 8).map (fun j =>
    { date := j, orders_count := 7, revenue := 7,
      canceled_orders := 7, avg_order_value := 7 })

/-- The single eligible day of `rows8`. -/
def cand0 : BRow := (candidates rows8 0).get ⟨0, by decide⟩

/-- C6: when the persisted cursor is at least the number of eligible days,
the invocation does not fail: it evaluates the eligible day at position 0 and
emits its payload with `sim_cursor = 0`. -/
theorem cursor_wrap_spec (rows : List DailyRow) (simStart state now : Nat)
    (w : Except String Nat) (h : candidates rows simStart ≠ [])
    (hc : (candidates rows simStart).length ≤ state) :
    (runMain (some (true, rows)) simStart state now w).outcome =
      .ok (mkPayload now 0
        ((candidates rows simStart).get ⟨0, List.length_pos.mpr h⟩)) := by
  rw [runMain_ok rows simStart state now w h]
  have h0 : wrapCursor (candidates rows simStart).length state = 0 :=
    if_pos hc
  simp only [h0]

/-- Witness for C6: one eligible day (`N = 1`), persisted cursor `5 ≥ N`;
the run succeeds and evaluates position 0. -/
theorem cursor_wrap_spec_witness :
    (runMain (some (true, rows8)) 0 5 3 (.ok 200)).outcome =
      .ok (mkPayload 3 0
        ((candidates rows8 0).get ⟨0, List.length_pos.mpr (by decide)⟩)) :=
  cursor_wrap_spec rows8 0 5 3 (.ok 200) (by decide) (by decide)

/-- C7: whenever an invocation reaches the evaluation stage (its outcome is a
payload), the persisted cursor is the used cursor plus one — and for every
other webhook outcome `w'`, including a raised transport exception, the run
still succeeds with the same payload and still persists the same advanced
cursor. -/
theorem delivery_failure_advances_cursor
    (input : Option (Bool × List DailyRow)) (simStart state now : Nat)
    (w : Except String Nat) (p : AlertPayload)
    (h : (runMain input simStart state now w).outcome = .ok p) :
    (runMain input simStart state now w).persisted = p.sim_cursor + 1 ∧
    ∀ w' : Except String Nat,
      (runMain input simStart state now w').outcome = .ok p ∧
      (runMain input simStart state now w').persisted = p.sim_cursor + 1 := by
  cases input with
  | none => simp [runMain] at h
  | some pr =>
    obtain ⟨colsOk, rows⟩ := pr
    cases colsOk with
    | false => simp [runMain] at h
    | true =>
      by_cases hempty : candidates rows simStart = []
      · simp [runMain, hempty] at h
      · rw [runMain_ok rows simStart state now w hempty] at h
        simp only [Except.ok.injEq] at h
        subst h
        refine ⟨?_, fun w' => ?_⟩
        · rw [runMain_ok rows simStart state now w hempty]
          rfl
        · rw [runMain_ok rows simStart state now w' hempty]
          exact ⟨rfl, rfl⟩

/-- Witness for C7: with one eligible day and cursor 0, a webhook that raises
(`.error "boom"`) still yields the same payload and persists cursor 1. -/
theorem delivery_failure_advances_cursor_witness :
    (runMain (some (true, rows8)) 0 0 3 (.error "boom")).outcome =
      .ok (mkPayload 3 0 cand0) ∧
    (runMain (some (true, rows8)) 0 0 3 (.error "boom")).persisted =
      (mkPayload 3 0 cand0).sim_cursor + 1 :=
  (delivery_failure_advances_cursor (some (true, rows8)) 0 0 3 (.ok 200)
    (mkPayload 3 0 cand0) rfl).2 (.error "boom")

/-- C9: every fatal outcome leaves the persisted cursor at its pre-invocation
value and never reaches the webhook; a missing input table and missing
required columns fail with `dataError`, an empty eligible-day set with
`configError`. -/
theorem fatal_before_state_mutation (input : Option (Bool × List DailyRow))
    (simStart state now : Nat) (w : Except String Nat) :
    (∀ e : RunError, (runMain input simStart state now w).outcome = .error e →
      (runMain input simStart state now w).persisted = state ∧
      (runMain input simStart state now w).delivered = none) ∧
    (input = none →
      (runMain input simStart state now w).outcome = .error .dataError) ∧
    (∀ rows : List DailyRow, input = some (false, rows) →
      (runMain input simStart state now w).outcome = .error .dataError) ∧
    (∀ rows : List DailyRow, input = some (true, rows) →
      candidates rows simStart = [] →
      (runMain input simStart state now w).outcome = .error .configError) := by
  refine ⟨?_, ?_, ?_, ?_⟩
  · intro e he
    cases input with
    | none => exact ⟨rfl, rfl⟩
    | some pr =>
      obtain ⟨colsOk, rows⟩ := pr
      cases colsOk with
      | false => exact ⟨rfl, rfl⟩
      | true =>
        by_cases hempty : candidates rows simStart = []
        · constructor <;> simp [runMain, hempty]
        · rw [runMain_ok rows simStart state now w hempty] at he
          simp at he
  · rintro rfl; rfl
  · rintro rows rfl; rfl
  · rintro rows rfl hemp
    simp [runMain, hemp]

/-- Witness for C9 at concrete inputs: the three fatal paths each leave the
cursor at its pre-invocation value 41 and skip the webhook. -/
theorem fatal_before_state_mutation_witness :
    ((runMain none 0 41 3 (.ok 200)).persisted = 41 ∧
      (runMain none 0 41 3 (.ok 200)).delivered = none) ∧
    (runMain none 0 41 3 (.ok 200)).outcome = .error .dataError ∧
    (runMain (some (false, rows8)) 0 41 3 (.ok 200)).outcome =
      .error .dataError ∧
    (runMain (some (true, [])) 0 41 3 (.ok 200)).outcome =
      .error .configError :=
  ⟨(fatal_before_state_mutation none 0 41 3 (.ok 200)).1 .dataError rfl,
   (fatal_before_state_mutation none 0 41 3 (.ok 200)).2.1 rfl,
   (fatal_before_state_mutation (some (false, rows8)) 0 41 3 (.ok 200)).2.2.1
     rows8 rfl,
   (fatal_before_state_mutation (some (true, [])) 0 41 3 (.ok 200)).2.2.2
     [] rfl (by decide)⟩

/-- C10: after every completed invocation the persisted cursor equals the
used cursor plus one, hence is at least 1 (0 is never written), and is at
most the number of eligible days. -/
theorem persisted_cursor_bounds (rows : List DailyRow)
    (simStart state now : Nat) (w : Except String Nat) (p : AlertPayload)
    (h : (runMain (some (true, rows)) simStart state now w).outcome = .ok p) :
    (runMain (some (true, rows)) simStart state now w).persisted =
      p.sim_cursor + 1 ∧
    1 ≤ (runMain (some (true, rows)) simStart state now w).persisted ∧
    (runMain (some (true, rows)) simStart state now w).persisted ≤
      (candidates rows simStart).length := by
  by_cases hempty : candidates rows simStart = []
  · simp [runMain, hempty] at h
  · rw [runMain_ok rows simStart state now w hempty] at h ⊢
    simp only [Except.ok.injEq] at h
    subst h
    refine ⟨rfl, Nat.succ_le_succ (Nat.zero_le _), ?_⟩
    exact wrapCursor_lt (candidates rows simStart).length state
      (List.length_pos.mpr hempty)

/-- Witness for C10: with one eligible day and loaded cursor 0, the persisted
value is 1 — equal to the number of eligible days (the wrap to 0 happens only
at the next load). -/
theorem persisted_cursor_bounds_witness :
    ((runMain (some (true, rows8)) 0 0 3 (.ok 200)).persisted =
        (mkPayload 3 0 cand0).sim_cursor + 1 ∧
      1 ≤ (runMain (some (true, rows8)) 0 0 3 (.ok 200)).persisted ∧
      (runMain (some (true, rows8)) 0 0 3 (.ok 200)).persisted ≤
        (candidates rows8 0).length) ∧
    (runMain (some (true, rows8)) 0 0 3 (.ok 200)).persisted =
      (candidates rows8 0).length :=
  ⟨persisted_cursor_bounds rows8 0 0 3 (.ok 200) (mkPayload 3 0 cand0) rfl,
   rfl⟩

/-- C8 counterexample: two invocations over unchanged input data and the same
persisted cursor (the first run's state write skipped), at wall-clock times 3
and 4, both evaluate the same eligible day but emit payloads that are NOT
identical — `run_time = datetime.now()` is part of the payload and differs. -/
theorem rerun_payload_not_identical :
    (runMain (some (true, rows8)) 0 0 3 (.ok 200)).outcome =
      .ok (mkPayload 3 0 cand0) ∧
    (runMain (some (true, rows8)) 0 0 4 (.ok 200)).outcome =
      .ok (mkPayload 4 0 cand0) ∧
    (mkPayload 3 0 cand0).date = (mkPayload 4 0 cand0).date ∧
    mkPayload 3 0 cand0 ≠ mkPayload 4 0 cand0 :=
  ⟨rfl, rfl, rfl, fun h => by
    have := congrArg AlertPayload.run_time h
    simp [mkPayload] at this⟩

/-- C8 amended: a re-run after a skipped state write evaluates the identical
day and produces an identical payload in every field except `run_time`
(entirely identical when the two invocations share a wall-clock time). -/
theorem rerun_identical_except_run_time
    (input : Option (Bool × List DailyRow)) (simStart state : Nat)
    (now₁ now₂ : Nat) (w₁ w₂ : Except String Nat) (p₁ p₂ : AlertPayload)
    (h₁ : (runMain input simStart state now₁ w₁).outcome = .ok p₁)
    (h₂ : (runMain input simStart state now₂ w₂).outcome = .ok p₂) :
    p₁.sim_cursor = p₂.sim_cursor ∧ p₁.date = p₂.date ∧
    p₁.status = p₂.status ∧ p₁.signals_count = p₂.signals_count ∧
    p₁.signals = p₂.signals ∧ p₁.summary = p₂.summary ∧
    p₂ = { p₁ with run_time := now₂ } := by
  cases input with
  | none => simp [runMain] at h₁
  | some pr =>
    obtain ⟨colsOk, rows⟩ := pr
    cases colsOk with
    | false => simp [runMain] at h₁
    | true =>
      by_cases hempty : candidates rows simStart = []
      · simp [runMain, hempty] at h₁
      · rw [runMain_ok rows simStart state now₁ w₁ hempty] at h₁
        rw [runMain_ok rows simStart state now₂ w₂ hempty] at h₂
        simp only [Except.ok.injEq] at h₁ h₂
        subst h₁
        subst h₂
        exact ⟨rfl, rfl, rfl, rfl, rfl, rfl, rfl⟩

/-- Witness for C8's amended claim: concrete re-run at wall-clock times 3 and
4 over `rows8` with the same cursor 0. -/
theorem rerun_identical_except_run_time_witness :
    (mkPayload 3 0 cand0).sim_cursor = (mkPayload 4 0 cand0).sim_cursor ∧
    (mkPayload 3 0 cand0).date = (mkPayload 4 0 cand0).date ∧
    (mkPayload 3 0 cand0).status = (mkPayload 4 0 cand0).status ∧
    (mkPayload 3 0 cand0).signals_count =
      (mkPayload 4 0 cand0).signals_count ∧
    (mkPayload 3 0 cand0).signals = (mkPayload 4 0 cand0).signals ∧
    (mkPayload 3 0 cand0).summary = (mkPayload 4 0 cand0).summary ∧
    mkPayload 4 0 cand0 = { mkPayload 3 0 cand0 with run_time := 4 } :=
  rerun_identical_except_run_time (some (true, rows8)) 0 0 3 4
    (.ok 200) (.error "boom") (mkPayload 3 0 cand0) (mkPayload 4 0 cand0)
    rfl rfl

/-- One record of `olist_orders_dataset.csv` (the columns `build_daily_kpi.py`
reads; `purchase_day` is the parsed purchase timestamp's calendar day, `none`
when `pd.to_datetime(..., errors="coerce")` yields `NaT`). -/
structure Order where
  order_id : Nat
  order_status : String
  purchase_day : Option Nat
deriving DecidableEq

/-- An order that survived `dropna(subset=["order_purchase_timestamp"])`. -/
structure VOrder where
  order_id : Nat
  order_status : String
  day : Nat
deriving DecidableEq

/-- One record of `olist_order_items_dataset.csv` (`none` = `NaN`). -/
structure Item where
  order_id : Nat
  price : Option ℚ
  freight_value : Option ℚ
deriving DecidableEq

/-- One record of `olist_order_payments_dataset.csv`. -/
structure Payment where
  order_id : Nat
  payment_value : ℚ
deriving DecidableEq

/-- `orders.dropna(subset=["order_purchase_timestamp"])`. -/
def validOrders (os : List Order) : List VOrder :=
  os.filterMap (fun o =>
    o.purchase_day.map (fun d => ⟨o.order_id, o.order_status, d⟩))

/-- `s.isin(["canceled", "unavailable"])`. -/
def isCanceled (s : String) : Bool := s == "canceled" || s == "unavailable"

/-- `orders_count=("order_id", "nunique")` for one purchase day. -/
def ordersCount (vs : List VOrder) (d : Nat) : Nat :=
  ((vs.filter (fun o => o.day == d)).map VOrder.order_id).dedup.length

/-- `canceled_orders=("order_status", lambda s: s.isin([...]).sum())` for one
purchase day. -/
def canceledCount (vs : List VOrder) (d : Nat) : Nat :=
  (vs.filter (fun o => o.day == d)).countP (fun o => isCanceled o.order_status)

/-- `item_revenue = price.fillna(0) + freight_value.fillna(0)`. -/
def itemRevenue (it : Item) : ℚ := it.price.getD 0 + it.freight_value.getD 0

/-- The inner merge of items with surviving orders, tagging each item with
its parent order's purchase day. -/
def itemsJoined (vs : List VOrder) (its : List Item) : List (Nat × ℚ) :=
  its.filterMap (fun it =>
    (vs.find? (fun o => o.order_id == it.order_id)).map
      (fun o => (o.day, itemRevenue it)))

/-- `revenue_items` for one day (0 when the day has no items — the
`fillna(0)` after the left merge). -/
def revenueItems (vs : List VOrder) (its : List Item) (d : Nat) : ℚ :=
  (((itemsJoined vs its).filter (fun p => p.1 == d)).map Prod.snd).sum

/-- The inner merge of payments with surviving orders. -/
def paymentsJoined (vs : List VOrder) (ps : List Payment) : List (Nat × ℚ) :=
  ps.filterMap (fun p =>
    (vs.find? (fun o => o.order_id == p.order_id)).map
      (fun o => (o.day, p.payment_value)))

/-- `revenue_payments` for one day. -/
def revenuePayments (vs : List VOrder) (ps : List Payment) (d : Nat) : ℚ :=
  (((paymentsJoined vs ps).filter (fun p => p.1 == d)).map Prod.snd).sum

/-- The "official revenue" column: payments-based when the payments file
exists, else items-based (`fillna(0)` in both cases). -/
def officialRevenue (vs : List VOrder) (its : List Item)
    (pays : Option (List Payment)) (d : Nat) : ℚ :=
  match pays with
  | some ps => revenuePayments vs ps d
  | none => revenueItems vs its d

/-- All purchase days (with multiplicity). -/
def purchaseDays (os : List Order) : List Nat :=
  (validOrders os).map VOrder.day

/-- `daily["date"].min()`. -/
def minDay (os : List Order) : Nat := (purchaseDays os).min?.getD 0

/-- `daily["date"].max()`. -/
def maxDay (os : List Order) : Nat := (purchaseDays os).max?.getD 0

/-- The whole aggregation pipeline of `build_daily_kpi.py` (audit columns
`revenue_items`/`revenue_payments` are not modelled; the exported table has
the five `DailyRow` columns): group by purchase day, build the
`pd.date_range` calendar spine from the minimum to the maximum observed day,
reindex onto it filling absent days with zeros, then recompute
`avg_order_value` row-wise. -/
def buildDaily (os : List Order) (its : List Item)
    (pays : Option (List Payment)) : Except String (List DailyRow) :=
  let vs := validOrders os
  if vs = [] then
    .error "No valid order_purchase_timestamp after parsing."
  else
    let prefill : List DailyRow :=
      (List.range' (minDay os) (maxDay os + 1 - minDay os)).map (fun d =>
        if vs.any (fun o => o.day == d) then
          { date := d, orders_count := (ordersCount vs d : ℚ),
            revenue := officialRevenue vs its pays d,
            canceled_orders := (canceledCount vs d : ℚ),
            avg_order_value :=
              round2 (officialRevenue vs its pays d / (ordersCount vs d : ℚ)) }
        else
          { date := d, orders_count := 0, revenue := 0, canceled_orders := 0,
            avg_order_value := 0 })
    .ok (prefill.map (fun r =>
      { r with avg_order_value :=
          if 0 < r.orders_count then round2 (r.revenue / r.orders_count)
          else 0 }))

/-- One aggregated (pre-fill / zero-filled) row of the calendar spine. -/
def aggRow (os : List Order) (its : List Item) (pays : Option (List Payment))
    (d : Nat) : DailyRow :=
  if (validOrders os).any (fun o => o.day == d) then
    { date := d, orders_count := (ordersCount (validOrders os) d : ℚ),
      revenue := officialRevenue (validOrders os) its pays d,
      canceled_orders := (canceledCount (validOrders os) d : ℚ),
      avg_order_value :=
        round2 (officialRevenue (validOrders os) its pays d /
          (ordersCount (validOrders os) d : ℚ)) }
  else
    { date := d, orders_count := 0, revenue := 0, canceled_orders := 0,
      avg_order_value := 0 }

/-- A spine row after the final row-wise `avg_order_value` recompute. -/
def finalRow (os : List Order) (its : List Item) (pays : Option (List Payment))
    (d : Nat) : DailyRow :=
  let r := aggRow os its pays d
  { r with avg_order_value :=
      if 0 < r.orders_count then round2 (r.revenue / r.orders_count) else 0 }

theorem buildDaily_eq_ok (os : List Order) (its : List Item)
    (pays : Option (List Payment)) (hv : validOrders os ≠ []) :
    buildDaily os its pays =
      .ok ((List.range' (minDay os) (maxDay os + 1 - minDay os)).map
        (finalRow os its pays)) := by
  simp only [buildDaily]
  rw [if_neg hv, List.map_map]
  rfl

theorem finalRow_date (os : List Order) (its : List Item)
    (pays : Option (List Payment)) (d : Nat) :
    (finalRow os its pays d).date = d := by
  simp only [finalRow, aggRow]
  split <;> rfl

theorem any_day_iff (os : List Order) (d : Nat) :
    ((validOrders os).any (fun o => o.day == d) = true) ↔
      d ∈ purchaseDays os := by
  simp only [purchaseDays, List.any_eq_true, List.mem_map, beq_iff_eq]

theorem finalRow_not_mem (os : List Order) (its : List Item)
    (pays : Option (List Payment)) (d : Nat) (hd : d ∉ purchaseDays os) :
    finalRow os its pays d =
      { date := d, orders_count := 0, revenue := 0, canceled_orders := 0,
        avg_order_value := 0 } := by
  have hany : ¬((validOrders os).any (fun o => o.day == d) = true) :=
    fun hb => hd ((any_day_iff os d).mp hb)
  simp only [finalRow, aggRow, if_neg hany]
  norm_num

theorem ordersCount_pos (os : List Order) (d : Nat)
    (hd : d ∈ purchaseDays os) : 0 < ordersCount (validOrders os) d := by
  rw [purchaseDays, List.mem_map] at hd
  obtain ⟨o, ho, hod⟩ := hd
  have hmem : o.order_id ∈
      (((validOrders os).filter (fun x => x.day == d)).map
        VOrder.order_id).dedup := by
    rw [List.mem_dedup, List.mem_map]
    exact ⟨o, List.mem_filter.mpr ⟨ho, by simp [hod]⟩, rfl⟩
  exact List.length_pos.mpr (List.ne_nil_of_mem hmem)

theorem finalRow_aov (os : List Order) (its : List Item)
    (pays : Option (List Payment)) (d : Nat) :
    (0 < (finalRow os its pays d).orders_count →
      (finalRow os its pays d).avg_order_value =
        round2 ((finalRow os its pays d).revenue /
          (finalRow os its pays d).orders_count)) ∧
    ((finalRow os its pays d).orders_count = 0 →
      (finalRow os its pays d).avg_order_value = 0) := by
  dsimp only [finalRow]
  constructor
  · intro h
    rw [if_pos h]
  · intro h
    rw [h]
    norm_num

theorem finalRow_cnt_zero (os : List Order) (its : List Item)
    (pays : Option (List Payment)) (d : Nat)
    (h : (finalRow os its pays d).orders_count = 0) :
    finalRow os its pays d =
      { date := d, orders_count := 0, revenue := 0, canceled_orders := 0,
        avg_order_value := 0 } := by
  by_cases hd : d ∈ purchaseDays os
  · exfalso
    have hpos := ordersCount_pos os d hd
    have hany : (validOrders os).any (fun o => o.day == d) = true :=
      (any_day_iff os d).mpr hd
    have h' : (aggRow os its pays d).orders_count = 0 := h
    rw [aggRow, if_pos hany] at h'
    have : (ordersCount (validOrders os) d : ℚ) = 0 := h'
    rw [Nat.cast_eq_zero] at this
    omega
  · exact finalRow_not_mem os its pays d hd

theorem minDay_spec (os : List Order) (hv : validOrders os ≠ []) :
    minDay os ∈ purchaseDays os ∧ ∀ d ∈ purchaseDays os, minDay os ≤ d := by
  have hne : purchaseDays os ≠ [] := by
    rw [purchaseDays]
    simp only [ne_eq, List.map_eq_nil]
    exact hv
  obtain ⟨m, hm⟩ : ∃ m, (purchaseDays os).min? = some m := by
    cases hpd : purchaseDays os with
    | nil => exact absurd hpd hne
    | cons a l => exact ⟨_, List.min?_cons⟩
  have hm' := List.min?_eq_some_iff'.mp hm
  simp only [minDay, hm, Option.getD_some]
  exact hm'

theorem maxDay_spec (os : List Order) (hv : validOrders os ≠ []) :
    maxDay os ∈ purchaseDays os ∧ ∀ d ∈ purchaseDays os, d ≤ maxDay os := by
  have hne : purchaseDays os ≠ [] := by
    rw [purchaseDays]
    simp only [ne_eq, List.map_eq_nil]
    exact hv
  obtain ⟨m, hm⟩ : ∃ m, (purchaseDays os).max? = some m := by
    cases hpd : purchaseDays os with
    | nil => exact absurd hpd hne
    | cons a l => exact ⟨_, List.max?_cons⟩
  have hm' := List.max?_eq_some_iff'.mp hm
  simp only [maxDay, hm, Option.getD_some]
  exact hm'

/-- C2: the dates of the aggregator's output table are exactly the contiguous
calendar range from the minimum to the maximum observed purchase day
inclusive — the date column is `range' (minDay) (maxDay − minDay + 1)`, where
`minDay`/`maxDay` really are the least/greatest purchase day (both attained);
the dates have no duplicates and no gaps (every day of the interval occurs);
and every row whose day has no orders is a zero-activity row. -/
theorem calendar_fill_spec (os : List Order) (its : List Item)
    (pays : Option (List Payment)) (table : List DailyRow)
    (h : buildDaily os its pays = .ok table) :
    table.map DailyRow.date =
      List.range' (minDay os) (maxDay os + 1 - minDay os) ∧
    minDay os ∈ purchaseDays os ∧ maxDay os ∈ purchaseDays os ∧
    (∀ d ∈ purchaseDays os, minDay os ≤ d ∧ d ≤ maxDay os) ∧
    (table.map DailyRow.date).Nodup ∧
    (∀ d : Nat, minDay os ≤ d → d ≤ maxDay os → d ∈ table.map DailyRow.date) ∧
    (∀ r ∈ table, r.date ∉ purchaseDays os →
      r.orders_count = 0 ∧ r.revenue = 0 ∧ r.canceled_orders = 0 ∧
        r.avg_order_value = 0) := by
  have hv : validOrders os ≠ [] := by
    intro hemp
    rw [buildDaily] at h
    simp only [hemp, if_pos] at h
    exact Except.noConfusion h
  rw [buildDaily_eq_ok os its pays hv] at h
  simp only [Except.ok.injEq] at h
  subst h
  have hdate : ((List.range' (minDay os) (maxDay os + 1 - minDay os)).map
      (finalRow os its pays)).map DailyRow.date =
      List.range' (minDay os) (maxDay os + 1 - minDay os) := by
    rw [List.map_map]
    have hcong : (List.range' (minDay os) (maxDay os + 1 - minDay os)).map
        (DailyRow.date ∘ finalRow os its pays) =
        (List.range' (minDay os) (maxDay os + 1 - minDay os)).map id := by
      apply List.map_congr_left
      intro d _
      exact finalRow_date os its pays d
    rw [hcong, List.map_id]
  refine ⟨hdate, (minDay_spec os hv).1, (maxDay_spec os hv).1,
    fun d hd => ⟨(minDay_spec os hv).2 d hd, (maxDay_spec os hv).2 d hd⟩,
    ?_, ?_, ?_⟩
  · rw [hdate]
    exact List.nodup_range' _ _
  · intro d hlo hhi
    rw [hdate, List.mem_range'_1]
    exact ⟨hlo, by omega⟩
  · intro r hr hrd
    rw [List.mem_map] at hr
    obtain ⟨d, _, rfl⟩ := hr
    rw [finalRow_date] at hrd
    rw [finalRow_not_mem os its pays d hrd]
    exact ⟨rfl, rfl, rfl, rfl⟩

/-- C3: in the aggregator's final (post-fill) table, every row has
`avg_order_value = round(revenue / orders_count, 2)` when `orders_count > 0`
(the post-fill recompute), and a zero-order row has both
`avg_order_value = 0` and `revenue = 0`. -/
theorem aov_recompute_spec (os : List Order) (its : List Item)
    (pays : Option (List Payment)) (table : List DailyRow)
    (h : buildDaily os its pays = .ok table) :
    ∀ r ∈ table,
      (0 < r.orders_count →
        r.avg_order_value = round2 (r.revenue / r.orders_count)) ∧
      (r.orders_count = 0 → r.avg_order_value = 0 ∧ r.revenue = 0) := by
  have hv : validOrders os ≠ [] := by
    intro hemp
    rw [buildDaily] at h
    simp only [hemp, if_pos] at h
    exact Except.noConfusion h
  rw [buildDaily_eq_ok os its pays hv] at h
  simp only [Except.ok.injEq] at h
  subst h
  intro r hr
  rw [List.mem_map] at hr
  obtain ⟨d, _, rfl⟩ := hr
  refine ⟨(finalRow_aov os its pays d).1, fun h0 => ?_⟩
  rw [finalRow_cnt_zero os its pays d h0]
  exact ⟨rfl, rfl⟩

/-- Two orders on days 100 and 102 (day 101 has no orders). -/
def osTest : List Order :=
  [{ order_id := 1, order_status := "delivered", purchase_day := some 100 },
   { order_id := 2, order_status := "canceled", purchase_day := some 102 }]

/-- One item for order 1: price 10, freight 2.5. -/
def itsTest : List Item :=
  [{ order_id := 1, price := some 10, freight_value := some (5 / 2) }]

/-- On a day with at least one order, the final row's `orders_count` is the
distinct-order count of that day. -/
theorem finalRow_cnt_mem (os : List Order) (its : List Item)
    (pays : Option (List Payment)) (d : Nat) (hd : d ∈ purchaseDays os) :
    (finalRow os its pays d).orders_count =
      (ordersCount (validOrders os) d : ℚ) := by
  dsimp only [finalRow, aggRow]
  rw [if_pos ((any_day_iff os d).mpr hd)]

/-- Witness for C2 at `osTest` (orders on days 100 and 102, no items): the
output dates are exactly the contiguous range 100..102 without duplicates,
the orderless day 101 is present, and its row is all zeros. -/
theorem calendar_fill_spec_witness :
    (((List.range' (minDay osTest) (maxDay osTest + 1 - minDay osTest)).map
        (finalRow osTest [] none)).map DailyRow.date =
      List.range' (minDay osTest) (maxDay osTest + 1 - minDay osTest)) ∧
    ((((List.range' (minDay osTest) (maxDay osTest + 1 - minDay osTest)).map
        (finalRow osTest [] none)).map DailyRow.date).Nodup) ∧
    (101 ∈ ((List.range' (minDay osTest) (maxDay osTest + 1 - minDay osTest)).map
        (finalRow osTest [] none)).map DailyRow.date) ∧
    ((finalRow osTest [] none 101).orders_count = 0 ∧
      (finalRow osTest [] none 101).revenue = 0 ∧
      (finalRow osTest [] none 101).canceled_orders = 0 ∧
      (finalRow osTest [] none 101).avg_order_value = 0) := by
  have h := calendar_fill_spec osTest [] none _
    (buildDaily_eq_ok osTest [] none (by decide))
  refine ⟨h.1, h.2.2.2.2.1, h.2.2.2.2.2.1 101 (by decide) (by decide), ?_⟩
  refine h.2.2.2.2.2.2 (finalRow osTest [] none 101) ?_ ?_
  · exact List.mem_map.mpr ⟨101, by decide, rfl⟩
  · rw [finalRow_date]
    decide

/-- Witness for C3 at `osTest` with `itsTest`: day 100 (which has an order)
satisfies the AOV formula, and the filled day 101 has zero AOV and zero
revenue. -/
theorem aov_recompute_spec_witness :
    ((finalRow osTest itsTest none 100).avg_order_value =
      round2 ((finalRow osTest itsTest none 100).revenue /
        (finalRow osTest itsTest none 100).orders_count)) ∧
    ((finalRow osTest itsTest none 101).avg_order_value = 0 ∧
      (finalRow osTest itsTest none 101).revenue = 0) := by
  have h := aov_recompute_spec osTest itsTest none _
    (buildDaily_eq_ok osTest itsTest none (by decide))
  constructor
  · refine (h (finalRow osTest itsTest none 100)
      (List.mem_map.mpr ⟨100, by decide, rfl⟩)).1 ?_
    rw [finalRow_cnt_mem osTest itsTest none 100 (by decide)]
    exact Nat.cast_pos.mpr (ordersCount_pos osTest 100 (by decide))
  · refine (h (finalRow osTest itsTest none 101)
      (List.mem_map.mpr ⟨101, by decide, rfl⟩)).2 ?_
    rw [finalRow_not_mem osTest itsTest none 101 (by decide)]
